import Mathlib

/-!
# MiniDxO belief engine: the diagnostic step and its provider contract

A shallow embedding of `src/beliefEngine.js` (`runDiagnosticStep`, with the
constants `DXO_RESPONSE_SCHEMA` and `DXO_SYSTEM_PROMPT`) and of the
`/diagnose` handler of `src/backend/index.js`.

* JavaScript strings are Lean strings.
* `runDiagnosticStep` is embedded twice: on a history that is a list of
  `{ role, text }` turns with string fields (the `ConversationTurn` of the
  specification), and, as `runDiagnosticStepUntyped`, on any value a parsed
  request body can hold, where line 46 can raise a `TypeError` before the `try`
  block is entered.  `untyped_agrees` relates the two.
* The asynchronous call `anthropic.messages.create` is a function from the
  request to the reply of the provider; the calls made and the lines written
  with `console.error` are recorded in the result of a run.
* `JSON.parse` is the ECMAScript built-in; it is embedded here as a recursive
  descent parser of the JSON grammar (ECMA-404).  Numbers keep the exact decimal
  that was written instead of its binary64 rounding, an escaped lone
  surrogate becomes U+FFFD, and no limit on the nesting depth is modelled.
-/

namespace MiniDxO

/-! ## JSON values -/

/-- A JSON number, kept as the decimal that was written:
`(-1)^negative * mantissa * 10^exponent`. -/
structure Decimal where
  negative : Bool
  mantissa : Nat
  exponent : Int
  deriving DecidableEq, Repr

/-- The values `JSON.parse` can return.  An object keeps its members in the
order of first insertion. -/
inductive JSONValue where
  | null
  | bool (b : Bool)
  | number (n : Decimal)
  | string (s : String)
  | array (elements : List JSONValue)
  | object (members : List (String × JSONValue))
  deriving Repr

namespace JSON

/-- The character U+0022, which delimits JSON strings. -/
def quote : Char := Char.ofNat 34

/-- The character U+005C, which starts an escape inside a JSON string. -/
def backslash : Char := Char.ofNat 92

/-- The replacement character U+FFFD. -/
def replacement : Char := Char.ofNat 65533

/-- Insignificant whitespace of the JSON grammar: space, tab, line feed,
carriage return. -/
def isWhitespace (c : Char) : Bool :=
  c.toNat == 32 || c.toNat == 9 || c.toNat == 10 || c.toNat == 13

/-- Drop leading whitespace. -/
def skipWhitespace : List Char → List Char
  | [] => []
  | c :: cs => if isWhitespace c then skipWhitespace cs else c :: cs

/-- Decimal digits `0` to `9`. -/
def isDigit (c : Char) : Bool := 48 ≤ c.toNat && c.toNat ≤ 57

/-- Value of a hexadecimal digit. -/
def hexValue (c : Char) : Option Nat :=
  if 48 ≤ c.toNat && c.toNat ≤ 57 then some (c.toNat - 48)
  else if 97 ≤ c.toNat && c.toNat ≤ 102 then some (c.toNat - 87)
  else if 65 ≤ c.toNat && c.toNat ≤ 70 then some (c.toNat - 55)
  else none

/-- The UTF-16 code unit written by four hexadecimal digits. -/
def hex4 (a b c d : Char) : Option Nat :=
  match hexValue a, hexValue b, hexValue c, hexValue d with
  | some w, some x, some y, some z => some (4096 * w + 256 * x + 16 * y + z)
  | _, _, _, _ => none

/-- The character named by a one-letter escape. -/
def simpleEscape (c : Char) : Option Char :=
  if c == quote then some quote
  else if c == backslash then some backslash
  else if c == '/' then some '/'
  else if c == 'b' then some (Char.ofNat 8)
  else if c == 'f' then some (Char.ofNat 12)
  else if c == 'n' then some (Char.ofNat 10)
  else if c == 'r' then some (Char.ofNat 13)
  else if c == 't' then some (Char.ofNat 9)
  else none

/-- Close a pending high surrogate that no low surrogate followed. -/
def flush (acc : List Char) : Option Nat → List Char
  | none => acc
  | some _ => replacement :: acc

/-- Append the code unit of a `\u` escape to the characters read so far
(`acc`, newest first); `pending` is a high surrogate waiting for its low
half. -/
def pushUnit (acc : List Char) (pending : Option Nat) (u : Nat) : List Char × Option Nat :=
  if 56320 ≤ u && u ≤ 57343 then
    match pending with
    | some h => (Char.ofNat (65536 + (h - 55296) * 1024 + (u - 56320)) :: acc, none)
    | none => (replacement :: acc, none)
  else if 55296 ≤ u && u ≤ 56319 then (flush acc pending, some u)
  else (Char.ofNat u :: flush acc pending, none)

/-- Read a string after its opening quote: the string and the input after the
closing quote. -/
def parseStringBody : List Char → List Char → Option Nat → Option (String × List Char)
  | [], _, _ => none
  | c :: cs, acc, pending =>
    if c == quote then some (String.mk (flush acc pending).reverse, cs)
    else if c == backslash then
      match cs with
      | [] => none
      | e :: cs1 =>
        if e == 'u' then
          match cs1 with
          | h1 :: h2 :: h3 :: h4 :: cs2 =>
            match hex4 h1 h2 h3 h4 with
            | some u => parseStringBody cs2 (pushUnit acc pending u).1 (pushUnit acc pending u).2
            | none => none
          | _ => none
        else
          match simpleEscape e with
          | some x => parseStringBody cs1 (x :: flush acc pending) none
          | none => none
    else if c.toNat < 32 then none
    else parseStringBody cs (c :: flush acc pending) none

/-- Split off the leading run of decimal digits. -/
def takeDigits : List Char → List Char × List Char
  | [] => ([], [])
  | c :: cs =>
    if isDigit c then (c :: (takeDigits cs).1, (takeDigits cs).2) else ([], c :: cs)

/-- The natural number written by a run of decimal digits. -/
def digitsValue (ds : List Char) : Nat :=
  ds.foldl (fun n c => 10 * n + (c.toNat - 48)) 0

/-- The optional fraction of a number: its digits and the rest. -/
def parseFraction (cs : List Char) : Option (List Char × List Char) :=
  match cs with
  | c :: rest =>
    if c == '.' then
      match takeDigits rest with
      | ([], _) => none
      | (d :: ds, rest1) => some (d :: ds, rest1)
    else some ([], cs)
  | [] => some ([], cs)

/-- The optional exponent of a number: its value and the rest. -/
def parseExponent (cs : List Char) : Option (Int × List Char) :=
  match cs with
  | c :: rest =>
    if c == 'e' || c == 'E' then
      match rest with
      | s :: rest1 =>
        if s == '-' then
          match takeDigits rest1 with
          | ([], _) => none
          | (d :: ds, rest2) => some (- (digitsValue (d :: ds) : Int), rest2)
        else
          match takeDigits (if s == '+' then rest1 else s :: rest1) with
          | ([], _) => none
          | (d :: ds, rest2) => some ((digitsValue (d :: ds) : Int), rest2)
      | [] => none
    else some (0, cs)
  | [] => some (0, cs)

/-- A number after its optional minus sign.  A leading zero may not be followed
by another digit. -/
def parseUnsigned (negative : Bool) (cs : List Char) : Option (JSONValue × List Char) :=
  match takeDigits cs with
  | ([], _) => none
  | (d :: ds, rest) =>
    if d == '0' && !ds.isEmpty then none
    else
      match parseFraction rest with
      | none => none
      | some (fs, rest1) =>
        match parseExponent rest1 with
        | none => none
        | some (e, rest2) =>
          some (.number ⟨negative, digitsValue (d :: ds ++ fs), e - fs.length⟩, rest2)

/-- A JSON number. -/
def parseNumber : List Char → Option (JSONValue × List Char)
  | [] => none
  | c :: cs => if c == '-' then parseUnsigned true cs else parseUnsigned false (c :: cs)

/-- The literals `true`, `false` and `null`. -/
def parseLiteral : List Char → Option (JSONValue × List Char)
  | 't' :: 'r' :: 'u' :: 'e' :: rest => some (.bool true, rest)
  | 'f' :: 'a' :: 'l' :: 's' :: 'e' :: rest => some (.bool false, rest)
  | 'n' :: 'u' :: 'l' :: 'l' :: rest => some (.null, rest)
  | _ => none

/-- Define a property on an object under construction: a repeated key keeps its
place and takes the later value. -/
def setProperty (key : String) (v : JSONValue) :
    List (String × JSONValue) → List (String × JSONValue)
  | [] => [(key, v)]
  | (k, x) :: rest => if k == key then (k, v) :: rest else (k, x) :: setProperty key v rest

/-- What the parser is reading: one value, the elements of an array that
follow those in `acc`, or the members of an object that follow those in
`acc`. -/
inductive Goal where
  | value
  | elements (acc : List JSONValue)
  | members (acc : List (String × JSONValue))

/-- Outcome of reading one goal. -/
inductive ParseResult where
  | ok (v : JSONValue) (rest : List Char)
  | invalid
  | outOfFuel
  deriving Repr

/-- Lift the result of a scanner. -/
def ofOption : Option (JSONValue × List Char) → ParseResult
  | some (v, rest) => .ok v rest
  | none => .invalid

/-- Recursive descent over the JSON grammar; `fuel` bounds the depth of the
recursion. -/
def parseAux : Nat → Goal → List Char → ParseResult
  | 0, _, _ => .outOfFuel
  | fuel + 1, .value, cs =>
    match skipWhitespace cs with
    | [] => .invalid
    | c :: rest =>
      if c == '{' then
        match skipWhitespace rest with
        | [] => .invalid
        | d :: rest1 =>
          if d == '}' then .ok (.object []) rest1
          else parseAux fuel (.members []) (d :: rest1)
      else if c == '[' then
        match skipWhitespace rest with
        | [] => .invalid
        | d :: rest1 =>
          if d == ']' then .ok (.array []) rest1
          else parseAux fuel (.elements []) (d :: rest1)
      else if c == quote then
        match parseStringBody rest [] none with
        | some (s, rest1) => .ok (.string s) rest1
        | none => .invalid
      else if c == '-' || isDigit c then ofOption (parseNumber (c :: rest))
      else ofOption (parseLiteral (c :: rest))
  | fuel + 1, .elements acc, cs =>
    match parseAux fuel .value cs with
    | .ok v rest =>
      match skipWhitespace rest with
      | [] => .invalid
      | d :: rest1 =>
        if d == ',' then parseAux fuel (.elements (acc ++ [v])) rest1
        else if d == ']' then .ok (.array (acc ++ [v])) rest1
        else .invalid
    | .invalid => .invalid
    | .outOfFuel => .outOfFuel
  | fuel + 1, .members acc, cs =>
    match skipWhitespace cs with
    | [] => .invalid
    | q :: rest =>
      if q == quote then
        match parseStringBody rest [] none with
        | none => .invalid
        | some (key, rest1) =>
          match skipWhitespace rest1 with
          | [] => .invalid
          | colon :: rest2 =>
            if colon == ':' then
              match parseAux fuel .value rest2 with
              | .ok v rest3 =>
                match skipWhitespace rest3 with
                | [] => .invalid
                | d :: rest4 =>
                  if d == ',' then parseAux fuel (.members (setProperty key v acc)) rest4
                  else if d == '}' then .ok (.object (setProperty key v acc)) rest4
                  else .invalid
              | .invalid => .invalid
              | .outOfFuel => .outOfFuel
            else .invalid
      else .invalid

/-- Fuel that suffices to read a goal from an input of the given length. -/
def fuelFor : Goal → Nat → Nat
  | .value, len => 2 * len + 1
  | .elements _, len => 2 * len + 2
  | .members _, len => 2 * len + 2

/-- The built-in `JSON.parse(text)` with no reviver: `none` stands for the
`SyntaxError` it throws.  The whole text must be one value between optional
whitespace. -/
def parse (text : String) : Option JSONValue :=
  match parseAux (fuelFor .value text.length) .value text.toList with
  | .ok v rest => if (skipWhitespace rest).isEmpty then some v else none
  | .invalid => none
  | .outOfFuel => none

end JSON

/-- Reading the property `key` of a value, `v[key]`; `none` is `undefined`.
Only objects have the properties read here (`status`, `nextQuestion`,
`diagnosis`, `confidence`, `citationText`, `citationSource`). -/
def JSONValue.get (v : JSONValue) (key : String) : Option JSONValue :=
  match v with
  | .object members => members.lookup key
  | _ => none

/-! ## src/beliefEngine.js -/

/-- One turn of the history the caller passes: `{ role, text }`. -/
structure ConversationTurn where
  role : String
  text : String
  deriving DecidableEq, Repr

/-- One message of the provider request: `{ role, content }`. -/
structure Message where
  role : String
  content : String
  deriving DecidableEq, Repr

/-- The constant `DXO_RESPONSE_SCHEMA` (beliefEngine.js, lines 10-27). -/
def DXO_RESPONSE_SCHEMA : JSONValue :=
  .object [
    ("type", .string "object"),
    ("properties", .object [
      ("status", .object [("type", .string "string"),
        ("description", .string "Must be 'CONTINUING' or 'DIAGNOSIS_READY'.")]),
      ("reasoningUpdate", .object [("type", .string "string"),
        ("description", .string "Explanation of how the last user input affected the diagnostic process (i.e., ruling things in or out).")]),
      ("nextQuestion", .object [("type", .string "string"),
        ("description", .string "The next targeted question for the user, or null if status is DIAGNOSIS_READY.")]),
      ("citationText", .object [("type", .string "string"),
        ("description", .string "A short, credible snippet of medical information (cite the source in citationSource).")]),
      ("citationSource", .object [("type", .string "string"),
        ("description", .string "The source of the citation (e.g., Mayo Clinic, NIH). Must be non-null if citationText is provided.")]),
      ("diagnosis", .object [
        ("type", .string "object"),
        ("properties", .object [
          ("name", .object [("type", .string "string")]),
          ("confidence", .object [("type", .string "number"),
            ("description", .string "Confidence score between 0 and 100.")])])])]),
    ("required", .array [.string "status", .string "reasoningUpdate", .string "nextQuestion",
      .string "citationText", .string "citationSource", .string "diagnosis"])]

/-- The constant `DXO_SYSTEM_PROMPT` (beliefEngine.js, lines 30-37). -/
def DXO_SYSTEM_PROMPT : String :=
  "You are the MiniDxO (AI Diagnostic Orchestrator). Your purpose is to simulate a transparent, step-by-step diagnostic process based on user-provided symptoms. You must strictly follow the output schema provided in the request.\n\nProtocol:\n1. Multi-Step Reasoning: Determine the next most critical question to narrow the possible diagnoses (Differential Diagnosis).\n2. Transparency: Explain in 'reasoningUpdate' how the last user response informed your current belief.\n3. Medical Text Referencing: Generate a 'citationText' and 'citationSource' based on relevant medical knowledge to support your current reasoning or the next question. Do NOT include search tools; generate the reference based on your internal knowledge, framed as a credible source (e.g., 'According to the CDC...').\n4. Diagnosis: Only set 'status' to 'DIAGNOSIS_READY' when you have sufficient information to provide a probable diagnosis and confidence score.\n5. Initial State: The first turn should ask for the user's main symptoms."

/-- The argument of `anthropic.messages.create` (beliefEngine.js, lines 57-67):
the six properties of the object literal. -/
structure Request where
  model : String
  max_tokens : Nat
  system : String
  messages : List Message
  response_format : JSONValue
  temperature : Decimal

/-- A content block of the provider response; `text` is `undefined` on a block
that is not a text block. -/
structure ContentBlock where
  text : Option String
  deriving DecidableEq, Repr

/-- What awaiting `anthropic.messages.create` gives: the promise rejects (the
provider cannot be reached, the key is refused, ...) or resolves to a response
with its `content` array. -/
inductive ProviderReply where
  | rejected (reason : String)
  | resolved (content : List ContentBlock)
  deriving DecidableEq, Repr

/-- What the `try` block can throw: the rejection of the provider call, the
`TypeError` of reading `.text` of `undefined`, the `SyntaxError` of
`JSON.parse`. -/
inductive Thrown where
  | providerError (reason : String)
  | typeError
  | invalidJSON
  deriving DecidableEq, Repr

/-- A JavaScript `Error` made by `new Error(message)`. -/
structure JSError where
  message : String
  deriving DecidableEq, Repr

/-- One invocation of `runDiagnosticStep`: the calls of
`anthropic.messages.create` it made, the `console.error` lines it wrote, and
the value it returned or the error it threw. -/
structure Run where
  requests : List Request
  logged : List (String × Thrown)
  result : Except JSError JSONValue

/-- Lines 46-54: map the history to provider messages, and add the opening
prompt when there is none. -/
def buildMessages (history : List ConversationTurn) : List Message :=
  let messages : List Message := history.map fun msg =>
    { role := if msg.role = "ai" then "assistant" else "user", content := msg.text }
  if messages.length = 0 then
    messages ++ [{ role := "user",
                   content := "Begin the diagnostic interview. Ask for the primary symptoms." }]
  else messages

/-- Lines 57-67: the request object. -/
def buildRequest (messages : List Message) : Request :=
  { model := "claude-3-sonnet-20240229"
    max_tokens := 2048
    system := DXO_SYSTEM_PROMPT
    messages := messages
    response_format := .object [("type", .string "json_object")]
    temperature := ⟨false, 1, -1⟩ }

/-- Lines 57-71 once the call has settled: `response.content[0].text` is
parsed; `JSON.parse(undefined)` parses the text `undefined`. -/
def tryBlock : ProviderReply → Except Thrown JSONValue
  | .rejected reason => .error (.providerError reason)
  | .resolved [] => .error .typeError
  | .resolved (block :: _) =>
    match JSON.parse (block.text.getD "undefined") with
    | some value => .ok value
    | none => .error .invalidJSON

/-- The function `runDiagnosticStep(history)` (beliefEngine.js, lines 44-77);
`create` is `anthropic.messages.create`. -/
def runDiagnosticStep (create : Request → ProviderReply)
    (history : List ConversationTurn) : Run :=
  let request := buildRequest (buildMessages history)
  match tryBlock (create request) with
  | .ok value => { requests := [request], logged := [], result := .ok value }
  | .error error =>
    { requests := [request]
      logged := [("Error calling Anthropic API:", error)]
      result := .error
        ⟨"Failed to communicate with the Belief Engine. Check API key and network."⟩ }

/-! ## src/beliefEngine.js on an arbitrary history value

The handler passes on whatever `req.body.history` holds, so `history` can be
any parsed JSON value; lines 46-49 run before the `try` block of line 56. -/

/-- A message as lines 46-49 build it from an arbitrary turn: `content` is
whatever `msg.text` is, `none` when it is `undefined`. -/
structure WireMessage where
  role : String
  content : Option JSONValue

/-- The argument of `anthropic.messages.create` built from such messages. -/
structure WireRequest where
  model : String
  max_tokens : Nat
  system : String
  messages : List WireMessage
  response_format : JSONValue
  temperature : Decimal

/-- Why line 46 raises a `TypeError`: `history.map` is not a function, or a
turn is `null` and its `.role` cannot be read. -/
inductive MapFailure where
  | notAnArray
  | nullTurn
  deriving DecidableEq, Repr

/-- What an invocation can throw: the `Error` made on line 75, or the
`TypeError` the engine raises on line 46. -/
inductive Raised where
  | error (e : JSError)
  | typeError (cause : MapFailure)
  deriving DecidableEq, Repr

/-- The callback of `history.map` (lines 46-49) on one element. -/
def wireMessage : JSONValue → Except MapFailure WireMessage
  | .null => .error .nullTurn
  | msg =>
    .ok { role :=
            match msg.get "role" with
            | some (.string r) => if r = "ai" then "assistant" else "user"
            | _ => "user"
          content := msg.get "text" }

/-- The loop of `Array.prototype.map`: elements in order, stopping at the first
callback that throws. -/
def mapTurns : List JSONValue → Except MapFailure (List WireMessage)
  | [] => .ok []
  | msg :: rest =>
    match wireMessage msg with
    | .error cause => .error cause
    | .ok m =>
      match mapTurns rest with
      | .error cause => .error cause
      | .ok ms => .ok (m :: ms)

/-- Lines 46-54 on an arbitrary value: only an array has a `map` method. -/
def wireMessages : JSONValue → Except MapFailure (List WireMessage)
  | .array turns =>
    match mapTurns turns with
    | .error cause => .error cause
    | .ok messages =>
      if messages.length = 0 then
        .ok (messages ++ [{ role := "user",
                            content := some (.string
                              "Begin the diagnostic interview. Ask for the primary symptoms.") }])
      else .ok messages
  | _ => .error .notAnArray

/-- Lines 57-67: the request object. -/
def wireRequest (messages : List WireMessage) : WireRequest :=
  { model := "claude-3-sonnet-20240229"
    max_tokens := 2048
    system := DXO_SYSTEM_PROMPT
    messages := messages
    response_format := .object [("type", .string "json_object")]
    temperature := ⟨false, 1, -1⟩ }

/-- One invocation of `runDiagnosticStep` on an arbitrary value. -/
structure UntypedRun where
  requests : List WireRequest
  logged : List (String × Thrown)
  result : Except Raised JSONValue

/-- The function `runDiagnosticStep(history)` (beliefEngine.js, lines 44-77) on
an arbitrary `history`: a `TypeError` of lines 46-49 leaves the function before
the `try` block, with no provider call and nothing logged. -/
def runDiagnosticStepUntyped (create : WireRequest → ProviderReply)
    (history : JSONValue) : UntypedRun :=
  match wireMessages history with
  | .error cause => { requests := [], logged := [], result := .error (.typeError cause) }
  | .ok messages =>
    let request := wireRequest messages
    match tryBlock (create request) with
    | .ok value => { requests := [request], logged := [], result := .ok value }
    | .error error =>
      { requests := [request]
        logged := [("Error calling Anthropic API:", error)]
        result := .error (.error
          ⟨"Failed to communicate with the Belief Engine. Check API key and network."⟩) }

/-- A turn as the parsed body holds it. -/
def ConversationTurn.toJSON (turn : ConversationTurn) : JSONValue :=
  .object [("role", .string turn.role), ("text", .string turn.text)]

/-- A message with a string content among the messages of arbitrary content. -/
def Message.toWire (m : Message) : WireMessage :=
  { role := m.role, content := some (.string m.content) }

/-- A request with string contents among the requests of arbitrary content. -/
def Request.toWire (r : Request) : WireRequest :=
  { model := r.model
    max_tokens := r.max_tokens
    system := r.system
    messages := r.messages.map Message.toWire
    response_format := r.response_format
    temperature := r.temperature }

/-! ## src/backend/index.js -/

/-- What the handler sends: `res.status(status).json(body)`. -/
structure HttpResponse where
  status : Nat
  body : JSONValue

/-- The number is `0` or `-0` once rounded to binary64: it is zero as written,
or at most 2^-1075 in absolute value. -/
def Decimal.isZero (n : Decimal) : Bool :=
  n.mantissa = 0 ||
    (decide (n.exponent < 0) && decide (n.mantissa * 2 ^ 1075 ≤ 10 ^ (-n.exponent).toNat))

/-- The test `!history` of line 19 on a parsed value. -/
def isFalsy : JSONValue → Bool
  | .null => true
  | .bool b => !b
  | .number n => n.isZero
  | .string s => s.length == 0
  | .array _ => false
  | .object _ => false

/-- The `message` of what was thrown; the text of a `TypeError` is the
engine's, given by `wording`. -/
def Raised.message (wording : MapFailure → String) : Raised → String
  | .error e => e.message
  | .typeError cause => wording cause

/-- The handler of `POST /diagnose` (index.js, lines 15-38); `history` is
`req.body.history`, `none` when the body has no such property. -/
def diagnose (wording : MapFailure → String) (create : WireRequest → ProviderReply)
    (history : Option JSONValue) : HttpResponse :=
  match history with
  | none => ⟨400, .object [("error", .string "Missing 'history' in request body.")]⟩
  | some history =>
    if isFalsy history then
      ⟨400, .object [("error", .string "Missing 'history' in request body.")]⟩
    else
      match (runDiagnosticStepUntyped create history).result with
      | .ok dxoResponse => ⟨200, dxoResponse⟩
      | .error error =>
        ⟨500, .object [("error", .string "Diagnostic Engine Failure"),
                       ("detail", .string (error.message wording))]⟩

/-! ## The invariants of the specification (section 3) -/

/-- The value is a string that is not empty. -/
def isNonEmptyString : Option JSONValue → Bool
  | some (.string s) => s.length != 0
  | _ => false

/-- The property is absent (`undefined`) or `null`. -/
def isAbsentOrNull : Option JSONValue → Bool
  | none => true
  | some .null => true
  | _ => false

/-- The decimal lies between 0 and 100 inclusive. -/
def Decimal.inPercentRange (n : Decimal) : Bool :=
  if n.mantissa = 0 then true
  else if n.negative then false
  else if 0 ≤ n.exponent then n.mantissa * 10 ^ n.exponent.toNat ≤ 100
  else n.mantissa ≤ 100 * 10 ^ (-n.exponent).toNat

/-- The diagnosis is present and its `confidence` is a number between 0 and
100 inclusive. -/
def hasConfidenceInRange : Option JSONValue → Bool
  | some (.object members) =>
    match members.lookup "confidence" with
    | some (.number n) => n.inPercentRange
    | _ => false
  | _ => false

/-- The `status` of the response is the string `s`. -/
def hasStatus (v : JSONValue) (s : String) : Prop :=
  v.get "status" = some (.string s)

/-- Invariant 2, for a CONTINUING response: `nextQuestion` is a non-empty string
and `diagnosis` is absent or null. -/
def continuingOk (v : JSONValue) : Bool :=
  isNonEmptyString (v.get "nextQuestion") && isAbsentOrNull (v.get "diagnosis")

/-- Invariant 3, for a DIAGNOSIS_READY response: `diagnosis` is present with a
confidence in [0, 100] and `nextQuestion` is absent or null. -/
def diagnosisReadyOk (v : JSONValue) : Bool :=
  hasConfidenceInRange (v.get "diagnosis") && isAbsentOrNull (v.get "nextQuestion")

/-- Invariant 4: a non-empty `citationText` comes with a non-empty
`citationSource`. -/
def citationOk (v : JSONValue) : Bool :=
  !isNonEmptyString (v.get "citationText") || isNonEmptyString (v.get "citationSource")

/-- The four invariants of section 3 together. -/
def satisfiesInvariants (v : JSONValue) : Prop :=
  (hasStatus v "CONTINUING" ∨ hasStatus v "DIAGNOSIS_READY") ∧
  (hasStatus v "CONTINUING" → continuingOk v = true) ∧
  (hasStatus v "DIAGNOSIS_READY" → diagnosisReadyOk v = true) ∧
  citationOk v = true

/-- The error `runDiagnosticStep` throws from its `catch` block (line 75). -/
def engineFailure : JSError :=
  ⟨"Failed to communicate with the Belief Engine. Check API key and network."⟩

/-! ## Concrete providers and payloads used in the examples -/

/-- A provider stub that answers every request with one text block. -/
def stubProvider (text : String) : Request → ProviderReply :=
  fun _ => .resolved [⟨some text⟩]

/-- A provider that cannot be reached: the call rejects. -/
def unreachableProvider : Request → ProviderReply :=
  fun _ => .rejected "connect ECONNREFUSED"

/-- The history of the end-to-end scenario: one user turn. -/
def feverHistory : List ConversationTurn :=
  [⟨"user", "I have a fever and cough"⟩]

/-- The payload of the end-to-end scenario of the specification. -/
def scenarioPayload : String :=
  "\x7b\"status\":\"CONTINUING\",\"reasoningUpdate\":\"...\",\"nextQuestion\":\"How long have symptoms persisted?\",\"citationText\":\"Fever often indicates...\",\"citationSource\":\"CDC\",\"diagnosis\":null\x7d"

/-- The object `scenarioPayload` is the JSON text of. -/
def scenarioResponse : JSONValue :=
  .object [("status", .string "CONTINUING"), ("reasoningUpdate", .string "..."),
    ("nextQuestion", .string "How long have symptoms persisted?"),
    ("citationText", .string "Fever often indicates..."),
    ("citationSource", .string "CDC"), ("diagnosis", .null)]

/-- A payload cut off in the middle of a string. -/
def truncatedPayload : String :=
  "\x7b\"status\":\"CONTINUING\",\"reasoningUpdate\":\"Fever and cough sugg"

/-- A CONTINUING payload with an empty `nextQuestion` and a diagnosis. -/
def emptyQuestionPayload : String :=
  "\x7b\"status\":\"CONTINUING\",\"reasoningUpdate\":\"...\",\"nextQuestion\":\"\",\"citationText\":\"Fever often indicates...\",\"citationSource\":\"CDC\",\"diagnosis\":\x7b\"name\":\"Influenza\",\"confidence\":90\x7d\x7d"

/-- The object `emptyQuestionPayload` is the JSON text of. -/
def emptyQuestionResponse : JSONValue :=
  .object [("status", .string "CONTINUING"), ("reasoningUpdate", .string "..."),
    ("nextQuestion", .string ""),
    ("citationText", .string "Fever often indicates..."),
    ("citationSource", .string "CDC"),
    ("diagnosis", .object [("name", .string "Influenza"),
      ("confidence", .number ⟨false, 90, 0⟩)])]

/-- A DIAGNOSIS_READY payload with a confidence of 150 and a `nextQuestion`. -/
def overconfidentPayload : String :=
  "\x7b\"status\":\"DIAGNOSIS_READY\",\"reasoningUpdate\":\"...\",\"nextQuestion\":\"Any rash?\",\"citationText\":\"Fever often indicates...\",\"citationSource\":\"CDC\",\"diagnosis\":\x7b\"name\":\"Influenza\",\"confidence\":150\x7d\x7d"

/-- The object `overconfidentPayload` is the JSON text of. -/
def overconfidentResponse : JSONValue :=
  .object [("status", .string "DIAGNOSIS_READY"), ("reasoningUpdate", .string "..."),
    ("nextQuestion", .string "Any rash?"),
    ("citationText", .string "Fever often indicates..."),
    ("citationSource", .string "CDC"),
    ("diagnosis", .object [("name", .string "Influenza"),
      ("confidence", .number ⟨false, 150, 0⟩)])]

/-- A well-formed DIAGNOSIS_READY payload. -/
def diagnosisPayload : String :=
  "\x7b\"status\":\"DIAGNOSIS_READY\",\"reasoningUpdate\":\"...\",\"nextQuestion\":null,\"citationText\":\"Fever often indicates...\",\"citationSource\":\"CDC\",\"diagnosis\":\x7b\"name\":\"Influenza\",\"confidence\":87.5\x7d\x7d"

/-- The object `diagnosisPayload` is the JSON text of. -/
def diagnosisResponse : JSONValue :=
  .object [("status", .string "DIAGNOSIS_READY"), ("reasoningUpdate", .string "..."),
    ("nextQuestion", .null),
    ("citationText", .string "Fever often indicates..."),
    ("citationSource", .string "CDC"),
    ("diagnosis", .object [("name", .string "Influenza"),
      ("confidence", .number ⟨false, 875, -1⟩)])]

/-- A payload whose citation has a text and an empty source. -/
def unsourcedPayload : String :=
  "\x7b\"status\":\"CONTINUING\",\"reasoningUpdate\":\"...\",\"nextQuestion\":\"How long have symptoms persisted?\",\"citationText\":\"Fever often indicates...\",\"citationSource\":\"\",\"diagnosis\":null\x7d"

/-- The object `unsourcedPayload` is the JSON text of. -/
def unsourcedResponse : JSONValue :=
  .object [("status", .string "CONTINUING"), ("reasoningUpdate", .string "..."),
    ("nextQuestion", .string "How long have symptoms persisted?"),
    ("citationText", .string "Fever often indicates..."),
    ("citationSource", .string ""), ("diagnosis", .null)]

/-- The history of the role-mapping scenario of the specification. -/
def headacheHistory : List ConversationTurn :=
  [⟨"system", "Begin..."⟩, ⟨"user", "I have a headache"⟩]

/-- A dialogue of user and ai turns only, one of them with an empty text. -/
def dialogueHistory : List ConversationTurn :=
  [⟨"user", "I have a fever and cough"⟩, ⟨"ai", "How long have symptoms persisted?"⟩,
   ⟨"user", ""⟩]

/-- A provider stub, for requests of arbitrary content, that answers with one
text block. -/
def stubWireProvider (text : String) : WireRequest → ProviderReply :=
  fun _ => .resolved [⟨some text⟩]

/-- A provider, for requests of arbitrary content, that cannot be reached. -/
def unreachableWireProvider : WireRequest → ProviderReply :=
  fun _ => .rejected "connect ECONNREFUSED"

/-- The wording V8 gives the two `TypeError`s of line 46. -/
def v8Wording : MapFailure → String
  | .notAnArray => "history.map is not a function"
  | .nullTurn => "Cannot read properties of null (reading 'role')"

/-! ## The parser never runs out of fuel -/

namespace JSON

/-- Skipping whitespace never lengthens the input. -/
theorem skipWhitespace_length_le (cs : List Char) :
    (skipWhitespace cs).length ≤ cs.length := by
  induction cs with
  | nil => simp [skipWhitespace]
  | cons c cs ih =>
    unfold skipWhitespace
    split
    · exact Nat.le_succ_of_le ih
    · exact Nat.le_refl _

/-- What follows the first significant character is shorter than the input. -/
theorem skipWhitespace_cons_length {cs : List Char} {d : Char} {rest : List Char}
    (h : skipWhitespace cs = d :: rest) : rest.length < cs.length := by
  have := skipWhitespace_length_le cs
  rw [h] at this
  simpa using this

/-- A string that is read consumes at least its closing quote. -/
theorem parseStringBody_length_lt :
    ∀ (n : Nat) (cs acc : List Char) (pending : Option Nat) (s : String) (rest : List Char),
      cs.length ≤ n →
      parseStringBody cs acc pending = some (s, rest) → rest.length < cs.length := by
  intro n
  induction n with
  | zero =>
    intro cs acc pending s rest hn h
    have : cs = [] := List.length_eq_zero.mp (Nat.le_zero.mp hn)
    subst this
    simp [parseStringBody] at h
  | succ n ih =>
    intro cs acc pending s rest hn h
    cases cs with
    | nil => simp [parseStringBody] at h
    | cons c cs =>
      have hcs : cs.length ≤ n := by simpa using hn
      unfold parseStringBody at h
      split at h
      · simp only [Option.some.injEq, Prod.mk.injEq] at h
        rw [← h.2]; simp only [List.length_cons]; omega
      · split at h
        · split at h
          · simp at h
          · rename_i e cs1
            split at h
            · split at h
              · rename_i h1 h2 h3 h4 cs2
                split at h
                · have := ih cs2 _ _ s rest (by simp at hcs; omega) h
                  simp; omega
                · simp at h
              · simp at h
            · split at h
              · have := ih cs1 _ _ s rest (by simp at hcs; omega) h
                simp; omega
              · simp at h
        · split at h
          · simp at h
          · have := ih cs _ _ s rest hcs h
            simp; omega

/-- The digits split off and the rest make up the input. -/
theorem takeDigits_length (cs : List Char) :
    (takeDigits cs).1.length + (takeDigits cs).2.length = cs.length := by
  induction cs with
  | nil => simp [takeDigits]
  | cons c cs ih =>
    unfold takeDigits
    split
    · simp; omega
    · simp

/-- Reading the fraction never lengthens the input. -/
theorem parseFraction_length_le {cs fs rest : List Char}
    (h : parseFraction cs = some (fs, rest)) : rest.length ≤ cs.length := by
  unfold parseFraction at h
  split at h
  · rename_i c rest0
    split at h
    · split at h
      · simp at h
      · rename_i d ds rest1 heq
        have := takeDigits_length rest0
        rw [heq] at this
        simp only [Option.some.injEq, Prod.mk.injEq] at h
        rw [← h.2]; simp at this ⊢; omega
    · simp only [Option.some.injEq, Prod.mk.injEq] at h
      rw [← h.2]
  · simp only [Option.some.injEq, Prod.mk.injEq] at h
    rw [← h.2]

/-- Reading the exponent never lengthens the input. -/
theorem parseExponent_length_le {cs rest : List Char} {e : Int}
    (h : parseExponent cs = some (e, rest)) : rest.length ≤ cs.length := by
  unfold parseExponent at h
  split at h
  · rename_i c rest0
    split at h
    · split at h
      · rename_i s rest1
        split at h
        · split at h
          · simp at h
          · rename_i d ds rest2 heq
            have := takeDigits_length rest1
            rw [heq] at this
            simp only [Option.some.injEq, Prod.mk.injEq] at h
            rw [← h.2]; simp at this ⊢; omega
        · split at h
          · simp at h
          · rename_i d ds rest2 heq
            have := takeDigits_length (if (s == '+') = true then rest1 else s :: rest1)
            rw [heq] at this
            simp only [Option.some.injEq, Prod.mk.injEq] at h
            rw [← h.2]
            split at this <;> simp at this ⊢ <;> omega
      · simp at h
    · simp only [Option.some.injEq, Prod.mk.injEq] at h
      rw [← h.2]
  · simp only [Option.some.injEq, Prod.mk.injEq] at h
    rw [← h.2]

/-- A number that is read consumes at least one digit. -/
theorem parseUnsigned_length_lt {negative : Bool} {cs rest : List Char} {v : JSONValue}
    (h : parseUnsigned negative cs = some (v, rest)) : rest.length < cs.length := by
  unfold parseUnsigned at h
  split at h
  · simp at h
  · rename_i d ds rest0 heq
    have hd := takeDigits_length cs
    rw [heq] at hd
    split at h
    · simp at h
    · split at h
      · simp at h
      · rename_i fs rest1 hf
        have h1 := parseFraction_length_le hf
        split at h
        · simp at h
        · rename_i e rest2 he
          have h2 := parseExponent_length_le he
          simp only [Option.some.injEq, Prod.mk.injEq] at h
          rw [← h.2]; simp at hd; omega

/-- A number that is read consumes at least one character. -/
theorem parseNumber_length_lt {cs rest : List Char} {v : JSONValue}
    (h : parseNumber cs = some (v, rest)) : rest.length < cs.length := by
  unfold parseNumber at h
  split at h
  · simp at h
  · split at h
    · have := parseUnsigned_length_lt h
      simp; omega
    · exact parseUnsigned_length_lt h

/-- A literal that is read consumes at least one character. -/
theorem parseLiteral_length_lt {cs rest : List Char} {v : JSONValue}
    (h : parseLiteral cs = some (v, rest)) : rest.length < cs.length := by
  unfold parseLiteral at h
  split at h
  · simp only [Option.some.injEq, Prod.mk.injEq] at h
    rw [← h.2]; simp only [List.length_cons]; omega
  · simp only [Option.some.injEq, Prod.mk.injEq] at h
    rw [← h.2]; simp only [List.length_cons]; omega
  · simp only [Option.some.injEq, Prod.mk.injEq] at h
    rw [← h.2]; simp only [List.length_cons]; omega
  · simp at h

/-- A lifted scanner result is `ok` only when the scanner succeeded. -/
theorem ofOption_ok {o : Option (JSONValue × List Char)} {v : JSONValue} {rest : List Char}
    (h : ofOption o = .ok v rest) : o = some (v, rest) := by
  cases o with
  | none => simp [ofOption] at h
  | some p =>
    obtain ⟨a, b⟩ := p
    simp only [ofOption, ParseResult.ok.injEq] at h
    rw [h.1, h.2]

/-- A scanner uses no fuel. -/
theorem ofOption_ne_outOfFuel (o : Option (JSONValue × List Char)) :
    ofOption o ≠ .outOfFuel := by
  cases o with
  | none => simp [ofOption]
  | some p => simp [ofOption]

/-- With the fuel of `fuelFor` the descent never runs out of fuel, and a goal
that is read consumes at least one character. -/
theorem parseAux_fuel :
    ∀ (fuel : Nat) (goal : Goal) (cs : List Char), fuelFor goal cs.length ≤ fuel →
      parseAux fuel goal cs ≠ .outOfFuel ∧
      ∀ v rest, parseAux fuel goal cs = .ok v rest → rest.length < cs.length := by
  intro fuel
  induction fuel with
  | zero =>
    intro goal cs h
    cases goal <;> simp [fuelFor] at h
  | succ fuel ih =>
    intro goal cs hfuel
    cases goal with
    | value =>
      simp only [fuelFor] at hfuel
      unfold parseAux
      split
      · simp
      · rename_i c rest hws
        have hrest := skipWhitespace_cons_length hws
        split
        · split
          · simp
          · rename_i d rest1 hws1
            have hrest1 := skipWhitespace_cons_length hws1
            split
            · refine ⟨by simp, ?_⟩
              intro v r h
              simp only [ParseResult.ok.injEq] at h
              rw [← h.2]; omega
            · have hlen : (d :: rest1).length ≤ rest.length := by
                rw [← hws1]; exact skipWhitespace_length_le rest
              have := ih (.members []) (d :: rest1) (by simp only [fuelFor]; omega)
              refine ⟨this.1, ?_⟩
              intro v r h
              have := this.2 v r h
              omega
        · split
          · split
            · simp
            · rename_i d rest1 hws1
              have hrest1 := skipWhitespace_cons_length hws1
              split
              · refine ⟨by simp, ?_⟩
                intro v r h
                simp only [ParseResult.ok.injEq] at h
                rw [← h.2]; omega
              · have hlen : (d :: rest1).length ≤ rest.length := by
                  rw [← hws1]; exact skipWhitespace_length_le rest
                have := ih (.elements []) (d :: rest1) (by simp only [fuelFor]; omega)
                refine ⟨this.1, ?_⟩
                intro v r h
                have := this.2 v r h
                omega
          · split
            · split
              · rename_i s rest1 hs
                have := parseStringBody_length_lt _ _ _ _ _ _ (Nat.le_refl _) hs
                refine ⟨by simp, ?_⟩
                intro v r h
                simp only [ParseResult.ok.injEq] at h
                rw [← h.2]; omega
              · simp
            · split
              · refine ⟨ofOption_ne_outOfFuel _, ?_⟩
                intro v r h
                have := parseNumber_length_lt (ofOption_ok h)
                simp only [List.length_cons] at this
                omega
              · refine ⟨ofOption_ne_outOfFuel _, ?_⟩
                intro v r h
                have := parseLiteral_length_lt (ofOption_ok h)
                simp only [List.length_cons] at this
                omega
    | elements acc =>
      simp only [fuelFor] at hfuel
      unfold parseAux
      have hv := ih .value cs (by simp only [fuelFor]; omega)
      split
      · rename_i v rest hval
        have hrest := hv.2 v rest hval
        split
        · simp
        · rename_i d rest1 hws1
          have hrest1 := skipWhitespace_cons_length hws1
          split
          · have := ih (.elements (acc ++ [v])) rest1 (by simp only [fuelFor]; omega)
            refine ⟨this.1, ?_⟩
            intro w r h
            have := this.2 w r h
            omega
          · split
            · refine ⟨by simp, ?_⟩
              intro w r h
              simp only [ParseResult.ok.injEq] at h
              rw [← h.2]; omega
            · simp
      · simp
      · rename_i hval
        exact absurd hval hv.1
    | members acc =>
      simp only [fuelFor] at hfuel
      unfold parseAux
      split
      · simp
      · rename_i q rest hws
        have hrest := skipWhitespace_cons_length hws
        split
        · split
          · simp
          · rename_i key rest1 hs
            have hrest1 := parseStringBody_length_lt _ _ _ _ _ _ (Nat.le_refl _) hs
            split
            · simp
            · rename_i colon rest2 hws2
              have hrest2 := skipWhitespace_cons_length hws2
              split
              · have hv := ih .value rest2 (by simp only [fuelFor]; omega)
                split
                · rename_i v rest3 hval
                  have hrest3 := hv.2 v rest3 hval
                  split
                  · simp
                  · rename_i d rest4 hws4
                    have hrest4 := skipWhitespace_cons_length hws4
                    split
                    · have := ih (.members (setProperty key v acc)) rest4
                        (by simp only [fuelFor]; omega)
                      refine ⟨this.1, ?_⟩
                      intro w r h
                      have := this.2 w r h
                      omega
                    · split
                      · refine ⟨by simp, ?_⟩
                        intro w r h
                        simp only [ParseResult.ok.injEq] at h
                        rw [← h.2]; omega
                      · simp
                · simp
                · rename_i hval
                  exact absurd hval hv.1
              · simp
        · simp

/-- `JSON.parse` returns `none` only for a text the grammar rejects: the fuel
it passes to the descent is never exhausted. -/
theorem parse_fuel_adequate (text : String) :
    parseAux (fuelFor .value text.length) .value text.toList ≠ .outOfFuel :=
  (parseAux_fuel _ .value text.toList (Nat.le_refl _)).1

end JSON

/-! ## The diagnostic step: what is sent and what comes back -/

/-- `JSON.parse(undefined)` throws: the text `undefined` is not JSON. -/
theorem parse_undefined : JSON.parse "undefined" = none := by rfl

/-- One invocation makes exactly one provider call, with the request of lines 57-67. -/
theorem runDiagnosticStep_requests (create : Request → ProviderReply)
    (history : List ConversationTurn) :
    (runDiagnosticStep create history).requests = [buildRequest (buildMessages history)] := by
  unfold runDiagnosticStep
  simp only []
  split <;> rfl

/-- The `try` block completes exactly when the first content block has a text
that `JSON.parse` accepts, and then with the parsed value. -/
theorem tryBlock_ok_iff (reply : ProviderReply) (v : JSONValue) :
    tryBlock reply = .ok v ↔
      ∃ text rest, reply = .resolved (⟨some text⟩ :: rest) ∧ JSON.parse text = some v := by
  cases reply with
  | rejected reason => simp [tryBlock]
  | resolved content =>
    cases content with
    | nil => simp [tryBlock]
    | cons block rest =>
      obtain ⟨text⟩ := block
      cases text with
      | none => simp [tryBlock, parse_undefined]
      | some text =>
        simp only [tryBlock, Option.getD_some]
        cases h : JSON.parse text with
        | none => simp [h]
        | some w =>
          constructor
          · intro hw
            injection hw with hw
            exact ⟨text, rest, rfl, by rw [h, hw]⟩
          · rintro ⟨text2, rest2, heq, hp⟩
            injection heq with heq
            injection heq with hb hr
            injection hb with hb
            injection hb with hb
            subst hb
            rw [h] at hp
            injection hp with hp
            rw [hp]

/-- `runDiagnosticStep` returns what the `try` block returns. -/
theorem result_ok_iff (create : Request → ProviderReply) (history : List ConversationTurn)
    (v : JSONValue) :
    (runDiagnosticStep create history).result = .ok v ↔
      tryBlock (create (buildRequest (buildMessages history))) = .ok v := by
  unfold runDiagnosticStep
  simp only []
  split
  · rename_i w h
    rw [h]
    constructor
    · intro hw; injection hw with hw; rw [hw]
    · intro hw; injection hw with hw; rw [hw]
  · rename_i thrown h
    rw [h]
    constructor
    · intro hw; cases hw
    · intro hw; cases hw

/-- `runDiagnosticStep` throws exactly when the `try` block throws, and then the
fixed error of line 75. -/
theorem result_error_iff (create : Request → ProviderReply) (history : List ConversationTurn)
    (e : JSError) :
    (runDiagnosticStep create history).result = .error e ↔
      e = engineFailure ∧
        ∃ thrown, tryBlock (create (buildRequest (buildMessages history))) = .error thrown := by
  unfold runDiagnosticStep
  simp only []
  split
  · rename_i w h
    rw [h]
    constructor
    · intro hw; cases hw
    · rintro ⟨_, thrown, ht⟩; cases ht
  · rename_i thrown h
    rw [h]
    constructor
    · intro hw
      injection hw with hw
      exact ⟨hw.symm, thrown, rfl⟩
    · rintro ⟨he, _⟩
      rw [he]; rfl

/-- A payload that parses is returned as parsed. -/
theorem result_ok_of_parse {create : Request → ProviderReply} {history : List ConversationTurn}
    {text : String} {rest : List ContentBlock} {v : JSONValue}
    (hreply : create (buildRequest (buildMessages history)) = .resolved (⟨some text⟩ :: rest))
    (hparse : JSON.parse text = some v) :
    (runDiagnosticStep create history).result = .ok v :=
  (result_ok_iff create history v).mpr
    ((tryBlock_ok_iff _ v).mpr ⟨text, rest, hreply, hparse⟩)

/-- A returned response is the parsed text of the first content block. -/
theorem result_ok_is_payload {create : Request → ProviderReply}
    {history : List ConversationTurn} {resp : JSONValue}
    (h : (runDiagnosticStep create history).result = .ok resp) :
    ∃ text rest,
      create (buildRequest (buildMessages history)) = .resolved (⟨some text⟩ :: rest) ∧
      JSON.parse text = some resp :=
  (tryBlock_ok_iff _ resp).mp ((result_ok_iff create history resp).mp h)

/-- For a non-empty history the messages are the mapped turns. -/
theorem buildMessages_of_ne_nil {history : List ConversationTurn} (h : history ≠ []) :
    buildMessages history = history.map fun msg =>
      { role := if msg.role = "ai" then "assistant" else "user", content := msg.text } := by
  unfold buildMessages
  cases history with
  | nil => exact absurd rfl h
  | cons t ts => simp

/-- The message list is never empty. -/
theorem buildMessages_ne_nil (history : List ConversationTurn) :
    buildMessages history ≠ [] := by
  unfold buildMessages
  cases history with
  | nil => simp
  | cons t ts => simp

/-- What the stub sends parses to what its payload parses to. -/
theorem stubProvider_sent {payload text : String} {rest : List ContentBlock}
    {request : Request} {v w : JSONValue}
    (hreply : stubProvider payload request = .resolved (⟨some text⟩ :: rest))
    (hparse : JSON.parse text = some v) (hpayload : JSON.parse payload = some w) :
    v = w := by
  simp only [stubProvider, ProviderReply.resolved.injEq, List.cons.injEq,
    ContentBlock.mk.injEq, Option.some.injEq] at hreply
  rw [← hreply.1, hpayload] at hparse
  exact (Option.some.inj hparse).symm

/-! ## The diagnostic step on an arbitrary history value -/

/-- The callback of line 46 fails only on `null`. -/
theorem wireMessage_error_iff (msg : JSONValue) (cause : MapFailure) :
    wireMessage msg = .error cause ↔ msg = .null ∧ cause = .nullTurn := by
  cases msg <;> simp [wireMessage, eq_comm]

/-- The loop of `map` fails exactly when a turn is `null`. -/
theorem mapTurns_error_iff (turns : List JSONValue) (cause : MapFailure) :
    mapTurns turns = .error cause ↔ JSONValue.null ∈ turns ∧ cause = .nullTurn := by
  induction turns generalizing cause with
  | nil => simp [mapTurns]
  | cons msg rest ih =>
    unfold mapTurns
    cases hm : wireMessage msg with
    | error c =>
      obtain ⟨hnull, hc⟩ := (wireMessage_error_iff msg c).mp hm
      subst hnull; subst hc
      simp [eq_comm]
    | ok m =>
      have hne : msg ≠ .null := by
        intro h; subst h; simp [wireMessage] at hm
      cases hr : mapTurns rest with
      | error c =>
        have := (ih c).mp hr
        simp only [Except.error.injEq, List.mem_cons]
        constructor
        · intro h; subst h; exact ⟨Or.inr this.1, this.2⟩
        · intro h; rw [h.2, this.2]
      | ok ms =>
        simp only [List.mem_cons]
        constructor
        · intro h; cases h
        · rintro ⟨h | h, hc⟩
          · exact absurd h.symm hne
          · have := (ih cause).mpr ⟨h, hc⟩
            rw [hr] at this
            cases this

/-- Lines 46-54 raise a `TypeError` exactly when `history` is not an array or
one of its turns is `null`. -/
theorem wireMessages_error_iff (history : JSONValue) (cause : MapFailure) :
    wireMessages history = .error cause ↔
      (cause = .notAnArray ∧ ∀ turns, history ≠ .array turns) ∨
      (cause = .nullTurn ∧ ∃ turns, history = .array turns ∧ JSONValue.null ∈ turns) := by
  cases history with
  | array turns =>
    simp only [wireMessages]
    cases hm : mapTurns turns with
    | error c =>
      have := (mapTurns_error_iff turns c).mp hm
      simp only [Except.error.injEq, ne_eq, JSONValue.array.injEq, forall_eq', not_true_eq_false,
        and_false, exists_eq_left', false_or]
      constructor
      · intro h; subst h; exact ⟨this.2, this.1⟩
      · intro h; rw [h.1, this.2]
    | ok ms =>
      have hno : ¬ (JSONValue.null ∈ turns) := by
        intro h
        have := (mapTurns_error_iff turns .nullTurn).mpr ⟨h, rfl⟩
        rw [hm] at this
        cases this
      simp only [ne_eq, JSONValue.array.injEq, forall_eq', not_true_eq_false, and_false,
        exists_eq_left', false_or]
      split <;> simp [hno]
  | null => simp [wireMessages, eq_comm]
  | bool b => simp [wireMessages, eq_comm]
  | number n => simp [wireMessages, eq_comm]
  | string s => simp [wireMessages, eq_comm]
  | object members => simp [wireMessages, eq_comm]

/-- The turns of a typed history map to the typed messages. -/
theorem mapTurns_toJSON (history : List ConversationTurn) :
    mapTurns (history.map ConversationTurn.toJSON) =
      .ok (history.map fun msg => Message.toWire
        { role := if msg.role = "ai" then "assistant" else "user", content := msg.text }) := by
  induction history with
  | nil => rfl
  | cons t ts ih =>
    simp only [List.map_cons, mapTurns, ih]
    simp [wireMessage, ConversationTurn.toJSON, JSONValue.get, List.lookup, Message.toWire]

/-- On a typed history lines 46-54 build the messages of `buildMessages`. -/
theorem wireMessages_toJSON (history : List ConversationTurn) :
    wireMessages (.array (history.map ConversationTurn.toJSON)) =
      .ok ((buildMessages history).map Message.toWire) := by
  simp only [wireMessages, mapTurns_toJSON]
  cases history with
  | nil => simp [buildMessages, Message.toWire]
  | cons t ts => simp [buildMessages]

/-- On a history of `{ role, text }` turns with string fields the two
embeddings of `runDiagnosticStep` agree. -/
theorem untyped_agrees (create : WireRequest → ProviderReply)
    (history : List ConversationTurn) :
    (runDiagnosticStepUntyped create (.array (history.map ConversationTurn.toJSON))).requests
        = (runDiagnosticStep (fun r => create r.toWire) history).requests.map Request.toWire ∧
      (runDiagnosticStepUntyped create (.array (history.map ConversationTurn.toJSON))).logged
        = (runDiagnosticStep (fun r => create r.toWire) history).logged ∧
      (runDiagnosticStepUntyped create (.array (history.map ConversationTurn.toJSON))).result
        = (runDiagnosticStep (fun r => create r.toWire) history).result.mapError Raised.error := by
  have hreq : wireRequest ((buildMessages history).map Message.toWire)
      = (buildRequest (buildMessages history)).toWire := rfl
  unfold runDiagnosticStepUntyped runDiagnosticStep
  simp only [wireMessages_toJSON, hreq]
  cases tryBlock (create (buildRequest (buildMessages history)).toWire) with
  | ok v => exact ⟨rfl, rfl, rfl⟩
  | error e => exact ⟨rfl, rfl, rfl⟩

/-! ## Claims on the response (C1, C2, C9, C7, C6, C8) -/

set_option maxRecDepth 100000 in
/-- C1, counterexample.  The provider stub answers the one-turn history with a
CONTINUING payload whose `nextQuestion` is the empty string and whose
`diagnosis` is an object: `runDiagnosticStep` returns that object, so a
returned CONTINUING response need not have a non-empty `nextQuestion` nor a
null `diagnosis`. -/
theorem continuing_invariant_not_enforced :
    (runDiagnosticStep (stubProvider emptyQuestionPayload) feverHistory).result
        = .ok emptyQuestionResponse ∧
      hasStatus emptyQuestionResponse "CONTINUING" ∧
      isNonEmptyString (emptyQuestionResponse.get "nextQuestion") = false ∧
      isAbsentOrNull (emptyQuestionResponse.get "diagnosis") = false :=
  ⟨by rfl, by rfl, by rfl, by rfl⟩

/-- C1, amended.  When `runDiagnosticStep` returns a CONTINUING response, that
response is exactly what `JSON.parse` reads from the text of the first content
block of the provider's reply; so, when the CONTINUING object the provider
sent has a non-empty string `nextQuestion` and an absent or null `diagnosis`,
the response has them too.  `runDiagnosticStep` itself checks neither. -/
theorem continuing_response_as_sent (create : Request → ProviderReply)
    (history : List ConversationTurn) (resp : JSONValue)
    (hret : (runDiagnosticStep create history).result = .ok resp)
    (hstatus : hasStatus resp "CONTINUING")
    (hsent : ∀ text rest v,
      create (buildRequest (buildMessages history)) = .resolved (⟨some text⟩ :: rest) →
      JSON.parse text = some v → hasStatus v "CONTINUING" →
      isNonEmptyString (v.get "nextQuestion") = true ∧
        isAbsentOrNull (v.get "diagnosis") = true) :
    (∃ text rest,
      create (buildRequest (buildMessages history)) = .resolved (⟨some text⟩ :: rest) ∧
      JSON.parse text = some resp) ∧
    isNonEmptyString (resp.get "nextQuestion") = true ∧
      isAbsentOrNull (resp.get "diagnosis") = true := by
  obtain ⟨text, rest, hreply, hparse⟩ := result_ok_is_payload hret
  exact ⟨⟨text, rest, hreply, hparse⟩, hsent text rest resp hreply hparse hstatus⟩

set_option maxRecDepth 100000 in
/-- C1, witness: the scenario payload of the specification, sent by the stub
for the one-turn history. -/
theorem continuing_response_as_sent_witness :
    (runDiagnosticStep (stubProvider scenarioPayload) feverHistory).result
        = .ok scenarioResponse ∧
      hasStatus scenarioResponse "CONTINUING" ∧
      (∃ text rest,
        stubProvider scenarioPayload (buildRequest (buildMessages feverHistory))
          = .resolved (⟨some text⟩ :: rest) ∧
        JSON.parse text = some scenarioResponse) ∧
      isNonEmptyString (scenarioResponse.get "nextQuestion") = true ∧
      isAbsentOrNull (scenarioResponse.get "diagnosis") = true :=
  ⟨by rfl, by rfl,
    continuing_response_as_sent (stubProvider scenarioPayload) feverHistory scenarioResponse
      (by rfl) (by rfl)
      (fun _ _ _ hreply hparse _ => by
        rw [stubProvider_sent hreply hparse (by rfl : JSON.parse scenarioPayload = some scenarioResponse)]
        exact ⟨by rfl, by rfl⟩)⟩

set_option maxRecDepth 100000 in
/-- C2, counterexample.  The stub answers with a DIAGNOSIS_READY payload whose
confidence is 150 and whose `nextQuestion` is a string: `runDiagnosticStep`
does not fail, it returns that object. -/
theorem diagnosis_ready_invariant_not_enforced :
    (runDiagnosticStep (stubProvider overconfidentPayload) feverHistory).result
        = .ok overconfidentResponse ∧
      hasStatus overconfidentResponse "DIAGNOSIS_READY" ∧
      hasConfidenceInRange (overconfidentResponse.get "diagnosis") = false ∧
      isAbsentOrNull (overconfidentResponse.get "nextQuestion") = false :=
  ⟨by rfl, by rfl, by rfl, by rfl⟩

/-- C2, amended.  When `runDiagnosticStep` returns a DIAGNOSIS_READY response
and the DIAGNOSIS_READY object the provider sent has a diagnosis with a
confidence in [0, 100] and an absent or null `nextQuestion`, so has the
response; and a DIAGNOSIS_READY payload that still carries a non-null
`nextQuestion` is returned as it was parsed, `runDiagnosticStep` does not
fail on it. -/
theorem diagnosis_ready_response_as_sent (create : Request → ProviderReply)
    (history : List ConversationTurn) :
    (∀ resp, (runDiagnosticStep create history).result = .ok resp →
      hasStatus resp "DIAGNOSIS_READY" →
      (∀ text rest v,
        create (buildRequest (buildMessages history)) = .resolved (⟨some text⟩ :: rest) →
        JSON.parse text = some v → hasStatus v "DIAGNOSIS_READY" →
        hasConfidenceInRange (v.get "diagnosis") = true ∧
          isAbsentOrNull (v.get "nextQuestion") = true) →
      hasConfidenceInRange (resp.get "diagnosis") = true ∧
        isAbsentOrNull (resp.get "nextQuestion") = true) ∧
    (∀ text rest v,
      create (buildRequest (buildMessages history)) = .resolved (⟨some text⟩ :: rest) →
      JSON.parse text = some v → hasStatus v "DIAGNOSIS_READY" →
      isAbsentOrNull (v.get "nextQuestion") = false →
      (runDiagnosticStep create history).result = .ok v) := by
  constructor
  · intro resp hret hstatus hsent
    obtain ⟨text, rest, hreply, hparse⟩ := result_ok_is_payload hret
    exact hsent text rest resp hreply hparse hstatus
  · intro text rest v hreply hparse _ _
    exact result_ok_of_parse hreply hparse

set_option maxRecDepth 100000 in
/-- C2, witness: a well-formed DIAGNOSIS_READY payload (confidence 87.5, null
`nextQuestion`) for the first part, the payload with confidence 150 and a
`nextQuestion` for the second. -/
theorem diagnosis_ready_response_as_sent_witness :
    (hasConfidenceInRange (diagnosisResponse.get "diagnosis") = true ∧
      isAbsentOrNull (diagnosisResponse.get "nextQuestion") = true) ∧
    (runDiagnosticStep (stubProvider overconfidentPayload) feverHistory).result
      = .ok overconfidentResponse :=
  ⟨(diagnosis_ready_response_as_sent (stubProvider diagnosisPayload) feverHistory).1
      diagnosisResponse (by rfl) (by rfl)
      (fun _ _ _ hreply hparse _ => by
        rw [stubProvider_sent hreply hparse (by rfl : JSON.parse diagnosisPayload = some diagnosisResponse)]
        exact ⟨by rfl, by rfl⟩),
    (diagnosis_ready_response_as_sent (stubProvider overconfidentPayload) feverHistory).2
      overconfidentPayload [] overconfidentResponse (by rfl) (by rfl) (by rfl) (by rfl)⟩

set_option maxRecDepth 100000 in
/-- C9, counterexample.  The stub answers with a payload whose `citationText` is
a non-empty string and whose `citationSource` is the empty string:
`runDiagnosticStep` returns that object. -/
theorem citation_invariant_not_enforced :
    (runDiagnosticStep (stubProvider unsourcedPayload) feverHistory).result
        = .ok unsourcedResponse ∧
      isNonEmptyString (unsourcedResponse.get "citationText") = true ∧
      isNonEmptyString (unsourcedResponse.get "citationSource") = false :=
  ⟨by rfl, by rfl, by rfl⟩

/-- C9, amended.  When `runDiagnosticStep` returns a response whose
`citationText` is a non-empty string and the object the provider sent has a
non-empty `citationSource` whenever it has a non-empty `citationText`, the
`citationSource` of the response is a non-empty string.  `runDiagnosticStep`
itself does not check it. -/
theorem citation_as_sent (create : Request → ProviderReply)
    (history : List ConversationTurn) (resp : JSONValue)
    (hret : (runDiagnosticStep create history).result = .ok resp)
    (htext : isNonEmptyString (resp.get "citationText") = true)
    (hsent : ∀ text rest v,
      create (buildRequest (buildMessages history)) = .resolved (⟨some text⟩ :: rest) →
      JSON.parse text = some v → isNonEmptyString (v.get "citationText") = true →
      isNonEmptyString (v.get "citationSource") = true) :
    isNonEmptyString (resp.get "citationSource") = true := by
  obtain ⟨text, rest, hreply, hparse⟩ := result_ok_is_payload hret
  exact hsent text rest resp hreply hparse htext

set_option maxRecDepth 100000 in
/-- C9, witness: the scenario payload, with its citation from the CDC. -/
theorem citation_as_sent_witness :
    (runDiagnosticStep (stubProvider scenarioPayload) feverHistory).result
        = .ok scenarioResponse ∧
      isNonEmptyString (scenarioResponse.get "citationText") = true ∧
      isNonEmptyString (scenarioResponse.get "citationSource") = true :=
  ⟨by rfl, by rfl,
    citation_as_sent (stubProvider scenarioPayload) feverHistory scenarioResponse
      (by rfl) (by rfl)
      (fun _ _ _ hreply hparse _ => by
        rw [stubProvider_sent hreply hparse (by rfl : JSON.parse scenarioPayload = some scenarioResponse)]
        rfl)⟩

/-- C7.  When the text of the first content block parses to an object that
satisfies the four invariants, `runDiagnosticStep` returns exactly that
object. -/
theorem valid_payload_returned_verbatim (create : Request → ProviderReply)
    (history : List ConversationTurn) (text : String) (rest : List ContentBlock)
    (v : JSONValue)
    (hreply : create (buildRequest (buildMessages history)) = .resolved (⟨some text⟩ :: rest))
    (hparse : JSON.parse text = some v)
    (_hinv : satisfiesInvariants v) :
    (runDiagnosticStep create history).result = .ok v :=
  result_ok_of_parse hreply hparse

set_option maxRecDepth 100000 in
/-- C7, witness: the end-to-end scenario of the specification; the response
keeps `nextQuestion` as the provider wrote it. -/
theorem valid_payload_returned_verbatim_witness :
    satisfiesInvariants scenarioResponse ∧
      (runDiagnosticStep (stubProvider scenarioPayload) feverHistory).result
        = .ok scenarioResponse ∧
      scenarioResponse.get "nextQuestion"
        = some (.string "How long have symptoms persisted?") :=
  have hinv : satisfiesInvariants scenarioResponse :=
    ⟨Or.inl (by rfl), fun _ => by rfl,
      fun h => by simp [hasStatus, scenarioResponse, JSONValue.get, List.lookup] at h,
      by rfl⟩
  ⟨hinv,
    valid_payload_returned_verbatim (stubProvider scenarioPayload) feverHistory
      scenarioPayload [] scenarioResponse (by rfl) (by rfl) hinv,
    by rfl⟩

/-- C6.  When the text of the first content block is not valid JSON,
`runDiagnosticStep` throws its error and returns no response at all. -/
theorem invalid_json_fails (create : Request → ProviderReply)
    (history : List ConversationTurn) (text : String) (rest : List ContentBlock)
    (hreply : create (buildRequest (buildMessages history)) = .resolved (⟨some text⟩ :: rest))
    (hinvalid : JSON.parse text = none) :
    (runDiagnosticStep create history).result = .error engineFailure ∧
      ∀ resp, (runDiagnosticStep create history).result ≠ .ok resp := by
  have hfail : (runDiagnosticStep create history).result = .error engineFailure := by
    refine (result_error_iff create history engineFailure).mpr ⟨rfl, .invalidJSON, ?_⟩
    rw [hreply]
    simp [tryBlock, hinvalid]
  refine ⟨hfail, ?_⟩
  intro resp hok
  rw [hfail] at hok
  cases hok

set_option maxRecDepth 100000 in
/-- C6, witness: a payload cut off in the middle of a string. -/
theorem invalid_json_fails_witness :
    JSON.parse truncatedPayload = none ∧
      (runDiagnosticStep (stubProvider truncatedPayload) feverHistory).result
        = .error engineFailure ∧
      ∀ resp, (runDiagnosticStep (stubProvider truncatedPayload) feverHistory).result
        ≠ .ok resp :=
  ⟨by rfl,
    invalid_json_fails (stubProvider truncatedPayload) feverHistory truncatedPayload []
      (by rfl) (by rfl)⟩

set_option maxRecDepth 100000 in
/-- C8, counterexample.  The unreachable provider and the stub that sends a
truncated payload make `runDiagnosticStep` throw the same error, whose message
does not contain the payload; and no two runs, one with a rejected call and one
with a payload that is not valid JSON, throw errors that differ. -/
theorem failures_not_distinguishable :
    ((runDiagnosticStep unreachableProvider feverHistory).result = .error engineFailure ∧
      (runDiagnosticStep (stubProvider truncatedPayload) feverHistory).result
        = .error engineFailure ∧
      ¬ (truncatedPayload.toList <:+: engineFailure.message.toList)) ∧
    ¬ ∃ (create₁ create₂ : Request → ProviderReply) (history₁ history₂ : List ConversationTurn)
        (reason text : String) (rest : List ContentBlock) (e₁ e₂ : JSError),
      create₁ (buildRequest (buildMessages history₁)) = .rejected reason ∧
      create₂ (buildRequest (buildMessages history₂)) = .resolved (⟨some text⟩ :: rest) ∧
      JSON.parse text = none ∧
      (runDiagnosticStep create₁ history₁).result = .error e₁ ∧
      (runDiagnosticStep create₂ history₂).result = .error e₂ ∧
      e₁ ≠ e₂ := by
  refine ⟨⟨by rfl, by rfl, by decide⟩, ?_⟩
  rintro ⟨create₁, create₂, history₁, history₂, reason, text, rest, e₁, e₂, _, _, _, h₁, h₂, hne⟩
  have he₁ := ((result_error_iff create₁ history₁ e₁).mp h₁).1
  have he₂ := ((result_error_iff create₂ history₂ e₂).mp h₂).1
  exact hne (he₁.trans he₂.symm)

/-- C8, amended.  A failure of `runDiagnosticStep`, on whatever value the
handler passes as `history`, is one of two.  Either line 46 raised a
`TypeError` (exactly when `history` is not an array or has a `null` turn),
before any provider call and with nothing logged.  Or the provider was called
once and the `try` block threw (the call rejected, the response had no content
block, the payload was not valid JSON): then the error thrown is the one
`Error` with the fixed message of line 75, whatever the cause and the payload,
and the cause is only written with `console.error`.  For a `history` that is
not falsy the `/diagnose` handler answers 500 with the message of the error
thrown as detail. -/
theorem failure_is_fixed_error (wording : MapFailure → String)
    (create : WireRequest → ProviderReply) (history : JSONValue) (raised : Raised)
    (hfail : (runDiagnosticStepUntyped create history).result = .error raised) :
    ((∃ messages thrown,
        wireMessages history = .ok messages ∧
        tryBlock (create (wireRequest messages)) = .error thrown ∧
        raised = .error engineFailure ∧
        (runDiagnosticStepUntyped create history).requests = [wireRequest messages] ∧
        (runDiagnosticStepUntyped create history).logged
          = [("Error calling Anthropic API:", thrown)]) ∨
      (∃ cause,
        wireMessages history = .error cause ∧
        ((cause = .notAnArray ∧ ∀ turns, history ≠ .array turns) ∨
          (cause = .nullTurn ∧ ∃ turns, history = .array turns ∧ JSONValue.null ∈ turns)) ∧
        raised = .typeError cause ∧
        (runDiagnosticStepUntyped create history).requests = [] ∧
        (runDiagnosticStepUntyped create history).logged = [])) ∧
    (isFalsy history = false →
      (diagnose wording create (some history)).status = 500 ∧
      (diagnose wording create (some history)).body
        = .object [("error", .string "Diagnostic Engine Failure"),
            ("detail", .string (raised.message wording))]) := by
  constructor
  · unfold runDiagnosticStepUntyped at hfail ⊢
    cases hm : wireMessages history with
    | error cause =>
      right
      simp only [hm, Except.error.injEq] at hfail
      exact ⟨cause, rfl, (wireMessages_error_iff history cause).mp hm, hfail.symm,
        by simp only [hm], by simp only [hm]⟩
    | ok messages =>
      left
      simp only [hm] at hfail ⊢
      cases ht : tryBlock (create (wireRequest messages)) with
      | ok v => simp only [ht] at hfail; cases hfail
      | error thrown =>
        simp only [ht, Except.error.injEq] at hfail
        exact ⟨messages, thrown, rfl, ht, hfail.symm, rfl, rfl⟩
  · intro hfalsy
    unfold diagnose
    simp only [hfalsy, hfail, Bool.false_eq_true, if_false, and_self]

set_option maxRecDepth 100000 in
/-- C8, witness: the truncated payload for the one-turn history; beside it, the
unreachable provider throws the same error, and the histories `"abc"` and
`[null]` raise the `TypeError` of line 46. -/
theorem failure_is_fixed_error_witness :
    ((runDiagnosticStepUntyped (stubWireProvider truncatedPayload)
        (.array (feverHistory.map ConversationTurn.toJSON))).result
        = .error (.error engineFailure) ∧
      (diagnose v8Wording (stubWireProvider truncatedPayload)
        (some (.array (feverHistory.map ConversationTurn.toJSON)))).status = 500 ∧
      (diagnose v8Wording (stubWireProvider truncatedPayload)
        (some (.array (feverHistory.map ConversationTurn.toJSON)))).body
        = .object [("error", .string "Diagnostic Engine Failure"),
            ("detail", .string
              "Failed to communicate with the Belief Engine. Check API key and network.")]) ∧
    (runDiagnosticStepUntyped unreachableWireProvider
        (.array (feverHistory.map ConversationTurn.toJSON))).result
      = .error (.error engineFailure) ∧
    (runDiagnosticStepUntyped (stubWireProvider scenarioPayload) (.string "abc")).result
      = .error (.typeError .notAnArray) ∧
    (runDiagnosticStepUntyped (stubWireProvider scenarioPayload) (.array [.null])).result
      = .error (.typeError .nullTurn) ∧
    (diagnose v8Wording (stubWireProvider scenarioPayload) (some (.string "abc"))).body
      = .object [("error", .string "Diagnostic Engine Failure"),
          ("detail", .string "history.map is not a function")] :=
  ⟨⟨by rfl,
      (failure_is_fixed_error v8Wording (stubWireProvider truncatedPayload)
        (.array (feverHistory.map ConversationTurn.toJSON)) (.error engineFailure)
        (by rfl)).2 (by rfl)⟩,
    by rfl, by rfl, by rfl, by rfl⟩

/-! ## Claims on the request (C10, C3, C4, C5) -/

/-- C10, what the code does.  One invocation makes one call of
`anthropic.messages.create`; the request carries `DXO_SYSTEM_PROMPT` as `system`
and the normalized messages, but its only format property is
`response_format: { type: "json_object" }`, which is not `DXO_RESPONSE_SCHEMA`:
the schema is sent nowhere. -/
theorem request_has_no_schema (create : Request → ProviderReply)
    (history : List ConversationTurn) :
    ∃ req, (runDiagnosticStep create history).requests = [req] ∧
      req.system = DXO_SYSTEM_PROMPT ∧
      req.messages = buildMessages history ∧
      req.response_format = .object [("type", .string "json_object")] ∧
      req.response_format ≠ DXO_RESPONSE_SCHEMA := by
  refine ⟨buildRequest (buildMessages history), runDiagnosticStep_requests create history,
    rfl, rfl, rfl, ?_⟩
  simp [buildRequest, DXO_RESPONSE_SCHEMA]

set_option maxRecDepth 100000 in
/-- C3, counterexample.  For the history of the role-mapping scenario the request
carries two messages: the system turn is sent as a `user` message, it is not
dropped. -/
theorem system_turn_not_dropped :
    (runDiagnosticStep (stubProvider scenarioPayload) headacheHistory).requests.map
        Request.messages
      = [[⟨"user", "Begin..."⟩, ⟨"user", "I have a headache"⟩]] ∧
    buildMessages headacheHistory ≠ [⟨"user", "I have a headache"⟩] :=
  ⟨by rfl, by decide⟩

/-- C3, amended.  A turn whose role is `system` is kept: the message list of the
request has one message for each turn of the history, and at the place of a
system turn stands a message of role `user` whose content is the text of that
turn. -/
theorem system_turn_sent_as_user (create : Request → ProviderReply)
    (history : List ConversationTurn) (i : Nat) (hi : i < history.length)
    (hrole : history[i].role = "system") :
    ∃ req, (runDiagnosticStep create history).requests = [req] ∧
      req.messages.length = history.length ∧
      req.messages[i]? = some ⟨"user", history[i].text⟩ := by
  have hne : history ≠ [] := by
    intro h; subst h; simp at hi
  refine ⟨buildRequest (buildMessages history), runDiagnosticStep_requests create history, ?_, ?_⟩
  · simp [buildRequest, buildMessages_of_ne_nil hne]
  · simp [buildRequest, buildMessages_of_ne_nil hne, List.getElem?_map,
      List.getElem?_eq_getElem hi, hrole]

set_option maxRecDepth 100000 in
/-- C3, witness: the role-mapping scenario; its first turn is the system
turn. -/
theorem system_turn_sent_as_user_witness :
    ∃ req, (runDiagnosticStep (stubProvider scenarioPayload) headacheHistory).requests = [req] ∧
      req.messages.length = 2 ∧
      req.messages[0]? = some ⟨"user", "Begin..."⟩ :=
  system_turn_sent_as_user (stubProvider scenarioPayload) headacheHistory 0
    (by decide) (by rfl)

/-- C4.  For a non-empty history of `user` and `ai` turns the message list has
the length and order of the history: its i-th message has the text of the i-th
turn as content, role `assistant` for an `ai` turn and `user` for a `user`
turn; and the list depends on the history alone, so two invocations, whatever
the provider does, send the same list. -/
theorem user_ai_history_mapped_in_order (history : List ConversationTurn)
    (hne : history ≠ [])
    (hroles : ∀ t ∈ history, t.role = "user" ∨ t.role = "ai") :
    (buildMessages history).length = history.length ∧
    (∀ (i : Nat) (hi : i < history.length),
      ∃ m, (buildMessages history)[i]? = some m ∧
        m.content = history[i].text ∧
        (history[i].role = "ai" → m.role = "assistant") ∧
        (history[i].role = "user" → m.role = "user") ∧
        (m.role = "assistant" ∨ m.role = "user")) ∧
    (∀ create₁ create₂ : Request → ProviderReply,
      (runDiagnosticStep create₁ history).requests.map Request.messages
          = [buildMessages history] ∧
        (runDiagnosticStep create₂ history).requests.map Request.messages
          = (runDiagnosticStep create₁ history).requests.map Request.messages) := by
  refine ⟨?_, ?_, ?_⟩
  · simp [buildMessages_of_ne_nil hne]
  · intro i hi
    refine ⟨⟨if history[i].role = "ai" then "assistant" else "user", history[i].text⟩,
      ?_, rfl, ?_, ?_, ?_⟩
    · simp [buildMessages_of_ne_nil hne, List.getElem?_map, List.getElem?_eq_getElem hi]
    · intro h; simp [h]
    · intro h; simp [h]
    · rcases hroles history[i] (List.getElem_mem _) with h | h <;> simp [h]
  · intro create₁ create₂
    simp [runDiagnosticStep_requests, buildRequest]

set_option maxRecDepth 100000 in
/-- C4, witness: a dialogue of three turns, the last with an empty text. -/
theorem user_ai_history_mapped_in_order_witness :
    buildMessages dialogueHistory
      = [⟨"user", "I have a fever and cough"⟩,
         ⟨"assistant", "How long have symptoms persisted?"⟩, ⟨"user", ""⟩] ∧
    (buildMessages dialogueHistory).length = dialogueHistory.length :=
  ⟨by decide,
    (user_ai_history_mapped_in_order dialogueHistory (by decide) (by decide)).1⟩

/-- C5.  The message list of the request is never empty, and for the empty
history it is the single opening message of role `user`. -/
theorem request_messages_nonempty (create : Request → ProviderReply)
    (history : List ConversationTurn) :
    (∃ req, (runDiagnosticStep create history).requests = [req] ∧
      req.messages = buildMessages history ∧ req.messages ≠ []) ∧
    (∃ req, (runDiagnosticStep create []).requests = [req] ∧
      req.messages = [⟨"user",
        "Begin the diagnostic interview. Ask for the primary symptoms."⟩]) :=
  ⟨⟨buildRequest (buildMessages history), runDiagnosticStep_requests create history, rfl,
      buildMessages_ne_nil history⟩,
    ⟨buildRequest (buildMessages []), runDiagnosticStep_requests create [], rfl⟩⟩

end MiniDxO
